import Mathlib

/-!
Verification of the cmdorc command-orchestration library.

Shallow embedding of the Python sources under `src/cmdorc/`:
  * `run_result.py`    — `RunState`, `RunResult` and its `mark_*` transitions
  * `command_config.py`— `CommandConfig`, `validate_trigger`, `__post_init__` validation
  * `concurrency_policy.py` — `ConcurrencyPolicy.decide`
  * `command_runner.py`— `_should_start_new_run`, the history block of
    `_task_completed`, admission in `run_command`, the dispatch of `trigger`,
    and the timeout branch of `_execute`
  * `local_subprocess_executor.py` — the timeout branch of `_monitor_process`

Conventions: Python `datetime.now()` values are passed in explicitly as `Nat`
ticks; Python `int` fields are `Int`; run identities are plain `String`s;
logging calls are modelled as counters where a claim mentions them.
-/

namespace Cmdorc

/-- Model of `RunState` from `run_result.py`. -/
inductive RunState where
  | pending
  | running
  | success
  | failed
  | cancelled
deriving Repr, DecidableEq

/-- The mutable fields of `RunResult` from `run_result.py` that its
`mark_*` transitions touch.  Identification fields (`run_id`,
`command_name`, `trigger_event`) and the `resolved_*` snapshots are never
read or written by the transitions and are elided.  The asyncio future is
modelled by `futureDone` (the `done()` flag) and `futureResolutions` (how
many times `set_result` has been called); `warnings` counts
`logger.warning` calls. -/
structure RunResult where
  output : String := ""
  success : Option Bool := none
  error : Option String := none
  state : RunState := RunState.pending
  start_time : Option Nat := none
  end_time : Option Nat := none
  duration : Option Nat := none
  futureDone : Bool := false
  futureResolutions : Nat := 0
  warnings : Nat := 0
deriving Repr, DecidableEq

/-- Duration computed in `_finalize`: `end - start if start else timedelta(0)`. -/
def durFrom : Option Nat → Nat → Nat
  | some s, now => now - s
  | none, _ => 0

/-- Model of `RunResult._finalize`: record end time, compute duration, and resolve the
future only when it is not already resolved (`if not self.future.done()`). -/
def finalizeRun (r : RunResult) (now : Nat) : RunResult :=
  if r.futureDone then
    { r with end_time := some now, duration := some (durFrom r.start_time now) }
  else
    { r with end_time := some now, duration := some (durFrom r.start_time now),
             futureDone := true, futureResolutions := r.futureResolutions + 1 }

/-- Model of `RunResult.mark_running`: warns when called from a non-PENDING state but
still moves to RUNNING and overwrites `start_time`. -/
def mark_running (r : RunResult) (now : Nat) : RunResult :=
  { r with warnings := if r.state = RunState.pending then r.warnings else r.warnings + 1,
           state := RunState.running, start_time := some now }

/-- Model of `RunResult.mark_success`. -/
def mark_success (r : RunResult) (now : Nat) : RunResult :=
  finalizeRun { r with state := RunState.success, success := some true } now

/-- Model of `RunResult.mark_failed`. -/
def mark_failed (r : RunResult) (error : String) (now : Nat) : RunResult :=
  finalizeRun { r with state := RunState.failed, success := some false,
                       error := some error } now

/-- Model of `RunResult.mark_cancelled`; `reason or "Command was cancelled"` treats
both `None` and the empty string as absent. -/
def mark_cancelled (r : RunResult) (reason : Option String) (now : Nat) : RunResult :=
  finalizeRun { r with state := RunState.cancelled, success := none,
                       error := some (match reason with
                         | some s => if s.isEmpty then "Command was cancelled" else s
                         | none => "Command was cancelled") } now

/-- Model of `RunResult.is_finished`: state not in {PENDING, RUNNING}. -/
def is_finished (r : RunResult) : Bool :=
  !(r.state = RunState.pending || r.state = RunState.running)

/-- A fresh `RunResult()` as constructed by `run_command`. -/
def freshRun : RunResult := {}

/-- One `mark_*` call together with the `datetime.now()` it observes. -/
inductive MarkOp where
  | running (now : Nat)
  | success (now : Nat)
  | failed (error : String) (now : Nat)
  | cancelled (reason : Option String) (now : Nat)
deriving Repr, DecidableEq

def applyMark (r : RunResult) (op : MarkOp) : RunResult :=
  match op with
  | MarkOp.running now => mark_running r now
  | MarkOp.success now => mark_success r now
  | MarkOp.failed e now => mark_failed r e now
  | MarkOp.cancelled reason now => mark_cancelled r reason now

def applyMarks (r : RunResult) (ops : List MarkOp) : RunResult :=
  ops.foldl applyMark r

/-- The `mark_*` calls that go through `_finalize` (all but `mark_running`). -/
def isFinalizingOp : MarkOp → Bool
  | MarkOp.running _ => false
  | MarkOp.success _ => true
  | MarkOp.failed _ _ => true
  | MarkOp.cancelled _ _ => true

/-- Model of `CommandConfig` from `command_config.py` (fields the core consults;
`vars`/`env` mappings are association lists). -/
structure CommandConfig where
  name : String
  command : String
  triggers : List String
  cancel_on_triggers : List String := []
  max_concurrent : Int := 1
  timeout_secs : Option Int := none
  on_retrigger : String := "cancel_and_restart"
  keep_history : Int := 1
  vars : List (String × String) := []
  cwd : Option String := none
  env : List (String × String) := []
  debounce_in_ms : Int := 0
  loop_detection : Bool := true
deriving Repr, DecidableEq

/-- Character class of the regexes in `validate_trigger`
(`^[\w\-\:]+$`, resp. `^[\w\-\:\*]+$` when wildcards are allowed);
`\w` is alphanumerics plus underscore. -/
def isTriggerChar (allowWildcards : Bool) (c : Char) : Bool :=
  c.isAlphanum || c = '_' || c = '-' || c = ':' || (allowWildcards && c = '*')

/-- Model of `validate_trigger` from `command_config.py`.  On success Python returns
`name.strip()`; a name matching the regex contains no whitespace, so this is
`name` itself. -/
def validate_trigger (name : String) (allowWildcards : Bool) : Except String String :=
  if name.isEmpty then Except.error "Trigger name cannot be empty"
  else if name.toList.all (isTriggerChar allowWildcards) then Except.ok name
  else Except.error ("Invalid trigger name " ++ name)

/-- Truth of `self.timeout_secs is not None and self.timeout_secs <= 0`. -/
def timeoutInvalid : Option Int → Bool
  | some t => decide (t ≤ 0)
  | none => false

/-- The error of the first failing `validate_trigger` call in a list, if any
(the `for t in ...: validate_trigger(t, ...)` loops raise at the first bad
trigger). -/
def firstTriggerError (ts : List String) (allowWildcards : Bool) : Option String :=
  ts.findSome? fun t =>
    match validate_trigger t allowWildcards with
    | Except.error e => some e
    | Except.ok _ => none

/-- Model of `CommandConfig.__post_init__` from `command_config.py`, with its checks in
source order.  The `Path(self.cwd).resolve()` probe is not modelled (it is a
filesystem call that raises only on OS-level errors); note that the source
performs no check at all on `keep_history` or `debounce_in_ms`. -/
def validateCommandConfig (cfg : CommandConfig) : Except String Unit :=
  if cfg.name.isEmpty then Except.error "Command name cannot be empty"
  else if cfg.command.toList.all (fun c => c.isWhitespace) then
    Except.error "Command cannot be empty"
  else if cfg.max_concurrent < 0 then Except.error "max_concurrent cannot be negative"
  else if timeoutInvalid cfg.timeout_secs then Except.error "timeout_secs must be positive"
  else if ¬(cfg.on_retrigger = "cancel_and_restart" ∨ cfg.on_retrigger = "ignore") then
    Except.error "on_retrigger must be cancel_and_restart or ignore"
  else
    match firstTriggerError cfg.triggers false with
    | some e => Except.error e
    | none =>
      match firstTriggerError cfg.cancel_on_triggers false with
      | some e => Except.error e
      | none => Except.ok ()

/-- Model of `NewRunDecision` from `types.py`; the active runs it lists are identified
by their run ids. -/
structure NewRunDecision where
  allow : Bool
  runs_to_cancel : List String := []
deriving Repr, DecidableEq

/-- Model of `ConcurrencyPolicy.decide` from `concurrency_policy.py`, including the
defensive final branch for an `on_retrigger` value outside the enum. -/
def ConcurrencyPolicy.decide (config : CommandConfig) (active_runs : List String) :
    NewRunDecision :=
  if config.max_concurrent = 0 then { allow := true, runs_to_cancel := [] }
  else if (active_runs.length : Int) < config.max_concurrent then
    { allow := true, runs_to_cancel := [] }
  else if config.on_retrigger = "cancel_and_restart" then
    { allow := true, runs_to_cancel := active_runs }
  else if config.on_retrigger = "ignore" then { allow := false, runs_to_cancel := [] }
  else { allow := false, runs_to_cancel := [] }

/-- Model of `CommandRunner._should_start_new_run` from `command_runner.py`.  Its only
side effect is calling `run.cancel()` on the live runs it evicts; the returned
list records exactly those runs, so the pair is (verdict, runs cancelled). -/
def shouldStartNewRun (cmd : CommandConfig) (live : List String) : Bool × List String :=
  if cmd.max_concurrent ≤ 0 ∨ (live.length : Int) < cmd.max_concurrent then (true, [])
  else if cmd.on_retrigger = "ignore" then (false, [])
  else (true, live)

/-- The history block of `CommandRunner._task_completed`: when
`keep_history > 0` append the completed run, then trim to the last
`keep_history` entries (`self._history[n] = self._history[n][-keep:]`);
otherwise leave the (per-command) history untouched. -/
def updateHistory (keep : Int) (hist : List String) (r : String) : List String :=
  if 0 < keep then
    if keep < ((hist ++ [r]).length : Int) then
      (hist ++ [r]).drop ((hist ++ [r]).length - keep.toNat)
    else hist ++ [r]
  else hist

/-- The parts of `CommandRunner` state that `trigger`/`run_command` consult:
the configs (from which the trigger maps are built), `_live_runs` as an
association list of run ids per command name, and `_callbacks` as
(pattern, callback id) registrations. -/
structure RunnerState where
  configs : List CommandConfig
  live : List (String × List String) := []
  callbacks : List (String × String) := []
deriving Repr, DecidableEq

/-- Lookup of `_build_trigger_map`: for each config, one entry per occurrence of
the trigger in its `triggers` list (the Python loop appends the command once
per matching occurrence). -/
def cmdsForTrigger (cfgs : List CommandConfig) (e : String) : List CommandConfig :=
  (cfgs.map fun c => (c.triggers.filter (fun t => t = e)).map fun _ => c).flatten

/-- Lookup of `_build_cancel_trigger_map`, same shape over `cancel_on_triggers`. -/
def cmdsForCancelTrigger (cfgs : List CommandConfig) (e : String) : List CommandConfig :=
  (cfgs.map fun c => (c.cancel_on_triggers.filter (fun t => t = e)).map fun _ => c).flatten

/-- Access of `self._live_runs[name]` (a defaultdict: missing key is the empty list). -/
def liveFor (st : RunnerState) (name : String) : List String :=
  match st.live.find? (fun p => p.1 = name) with
  | some p => p.2
  | none => []

/-- Access of `self._callbacks.get(event_name, [])`: dispatch looks the event up by
exact dictionary key. -/
def callbacksFor (cbs : List (String × String)) (e : String) : List String :=
  (cbs.filter (fun p => p.1 = e)).map (fun p => p.2)

/-- Observable effects of one `CommandRunner.trigger(event, _seen)` call:
the runs started (with the `_seen` chain each new run records), the live runs
cancelled through the cancel map, the live runs cancelled by
`_should_start_new_run`, the callbacks invoked, whether the cycle warning
fired and the chain it printed, and the `_seen` list at return (the
`finally: _seen.pop()` restores it). -/
structure DispatchOutcome where
  started : List (String × List String)
  runsCancelled : List String
  policyCancelled : List String
  callbacksRun : List String
  cycleWarning : Bool
  warningChain : List String
  seenAfter : List String
deriving Repr, DecidableEq

/-- Model of `CommandRunner.trigger` from `command_runner.py`: return immediately when
the event has no start entry, no cancel entry and no callback; otherwise abort
with a warning naming `_seen[-8:] + [event]` when the event is already in
`_seen`; otherwise append the event and dispatch cancels, starts (skipping
commands whose retrigger policy refuses, as `run_command`'s `ValueError` is
caught) and callbacks.  Every started run snapshots the extended chain. -/
def triggerDispatch (st : RunnerState) (e : String) (seen : List String) : DispatchOutcome :=
  if cmdsForTrigger st.configs e = [] ∧ cmdsForCancelTrigger st.configs e = []
      ∧ callbacksFor st.callbacks e = [] then
    { started := [], runsCancelled := [], policyCancelled := [], callbacksRun := [],
      cycleWarning := false, warningChain := [], seenAfter := seen }
  else if e ∈ seen then
    { started := [], runsCancelled := [], policyCancelled := [], callbacksRun := [],
      cycleWarning := true, warningChain := seen.drop (seen.length - 8) ++ [e],
      seenAfter := seen }
  else
    { started := (cmdsForTrigger st.configs e).filterMap fun c =>
        if (shouldStartNewRun c (liveFor st c.name)).1 then some (c.name, seen ++ [e])
        else none,
      runsCancelled := ((cmdsForCancelTrigger st.configs e).map fun c => liveFor st c.name).flatten,
      policyCancelled :=
        ((cmdsForTrigger st.configs e).map fun c => (shouldStartNewRun c (liveFor st c.name)).2).flatten,
      callbacksRun := callbacksFor st.callbacks e,
      cycleWarning := false, warningChain := [], seenAfter := seen }

/-- The admission part of `CommandRunner.run_command`: unknown name raises,
a refusing retrigger policy raises, otherwise the run starts and the policy's
evicted runs (already cancelled) are returned.  Note the source consults no
clock and performs no debounce check whatsoever. -/
def runCommandAdmission (st : RunnerState) (name : String) : Except String (List String) :=
  match st.configs.find? (fun c => c.name = name) with
  | none => Except.error ("Command " ++ name ++ " not found")
  | some cfg =>
    if (shouldStartNewRun cfg (liveFor st name)).1 then
      Except.ok (shouldStartNewRun cfg (liveFor st name)).2
    else Except.error ("Command " ++ name ++ " is already running and on_retrigger=ignore")

/-- How the awaited subprocess behaves, as observed by `_execute`:
it completes with an exit code and output, the `asyncio.wait_for` wrapper
times out (only possible when `cmd.timeout_secs` is set), or the task is
cancelled mid-flight. -/
inductive ProcBehavior where
  | completes (exitCode : Int) (stdout stderr : String)
  | exceedsTimeout (bufferedOutput : String)
  | cancelledInFlight (bufferedOutput : String)
deriving Repr, DecidableEq

/-- Result of one execution: the final `RunResult`, whether the subprocess
was terminated by the runner, and whether an exception escaped to the
caller of `_execute`. -/
structure ExecOutcome where
  result : RunResult
  processTerminated : Bool
  raisedToCaller : Bool
deriving Repr, DecidableEq

/-- Model of `CommandRunner._execute` from `command_runner.py` (the completion,
timeout and cancellation paths).  On timeout: `mark_failed("Timeout
exceeded")`, then the partial output is stored and the process is terminated;
nothing propagates to the caller.  A nonzero exit code raises
`RuntimeError(f"Exit code {code}")`, caught by the generic handler which
marks the run failed with that message. -/
def executeRun (_cmd : CommandConfig) (r : RunResult) (b : ProcBehavior) (now : Nat) :
    ExecOutcome :=
  match b with
  | ProcBehavior.exceedsTimeout buffered =>
    { result := { mark_failed r "Timeout exceeded" now with output := buffered },
      processTerminated := true, raisedToCaller := false }
  | ProcBehavior.cancelledInFlight buffered =>
    { result := mark_cancelled { r with output := buffered } none now,
      processTerminated := true, raisedToCaller := false }
  | ProcBehavior.completes code out err =>
    if code = 0 then
      { result := mark_success { r with output := out ++ err } now,
        processTerminated := false, raisedToCaller := false }
    else
      { result := mark_failed { r with output := out ++ err }
          ("Exit code " ++ toString code) now,
        processTerminated := false, raisedToCaller := false }

/-- The timeout error message of `LocalSubprocessExecutor._monitor_process`. -/
def monitorTimeoutMessage (timeout_secs : Int) : String :=
  "Command timed out after " ++ toString timeout_secs ++ " seconds"

/-- Model of the `asyncio.TimeoutError` branch of
`LocalSubprocessExecutor._monitor_process`: mark the run failed with a
message naming the configured duration, then kill the process; nothing is
raised. -/
def monitorTimeout (r : RunResult) (timeout_secs : Int) (now : Nat) : ExecOutcome :=
  { result := mark_failed r (monitorTimeoutMessage timeout_secs) now,
    processTerminated := true, raisedToCaller := false }

/-- Modelled from the spec: the debounce check of the run-start sequence
(spec §4.7.1 step 2).  The module that performs it (the orchestrator /
`CommandRuntime`, imported by `cmdorc/__init__.py`) is not present under
`src/`; only its declarations exist there (`DebounceError` in
`exceptions.py`, whose constructor takes the elapsed and required times, and
the `debounce_in_ms` field of `CommandConfig`).  If `debounce_in_ms > 0` and
the last finalized run ended less than `debounce_in_ms` ago, fail with the
elapsed and required times; the window is measured from the END of the
previous run. -/
def specDebounceCheck (debounce_in_ms : Int) (lastEnd : Option Int) (now : Int) :
    Except (Int × Int) Unit :=
  match lastEnd with
  | some t =>
    if 0 < debounce_in_ms ∧ now - t < debounce_in_ms then
      Except.error (now - t, debounce_in_ms)
    else Except.ok ()
  | none => Except.ok ()

/-- The single-shot discipline of the completion future: `set_result` has
been called exactly once as soon as (and only when) the future reports
`done()`. -/
def futureInv (r : RunResult) : Prop :=
  r.futureResolutions = (if r.futureDone then 1 else 0)

lemma finalizeRun_state (r : RunResult) (now : Nat) :
    (finalizeRun r now).state = r.state := by
  unfold finalizeRun; split <;> rfl

lemma finalizeRun_error (r : RunResult) (now : Nat) :
    (finalizeRun r now).error = r.error := by
  unfold finalizeRun; split <;> rfl

lemma finalizeRun_end_time (r : RunResult) (now : Nat) :
    (finalizeRun r now).end_time = some now := by
  unfold finalizeRun; split <;> rfl

lemma finalizeRun_futureDone (r : RunResult) (now : Nat) :
    (finalizeRun r now).futureDone = true := by
  unfold finalizeRun; split
  · rename_i h; exact h
  · rfl

lemma finalizeRun_res_done (r : RunResult) (now : Nat) (h : r.futureDone = true) :
    (finalizeRun r now).futureResolutions = r.futureResolutions := by
  unfold finalizeRun; rw [if_pos h]

lemma finalizeRun_res_notdone (r : RunResult) (now : Nat) (h : r.futureDone = false) :
    (finalizeRun r now).futureResolutions = r.futureResolutions + 1 := by
  unfold finalizeRun; rw [if_neg (by simp [h])]

lemma finalizeRun_inv (r : RunResult) (now : Nat) (h : futureInv r) :
    futureInv (finalizeRun r now) := by
  unfold futureInv at h ⊢
  cases hd : r.futureDone with
  | true =>
    rw [finalizeRun_res_done r now hd, finalizeRun_futureDone]
    simpa [hd] using h
  | false =>
    rw [finalizeRun_res_notdone r now hd, finalizeRun_futureDone]
    simp [hd] at h
    simp [h]

lemma mark_failed_state (r : RunResult) (e : String) (now : Nat) :
    (mark_failed r e now).state = RunState.failed :=
  finalizeRun_state _ _

lemma mark_failed_error (r : RunResult) (e : String) (now : Nat) :
    (mark_failed r e now).error = some e :=
  finalizeRun_error _ _

lemma mark_success_state (r : RunResult) (now : Nat) :
    (mark_success r now).state = RunState.success :=
  finalizeRun_state _ _

lemma mark_cancelled_state (r : RunResult) (reason : Option String) (now : Nat) :
    (mark_cancelled r reason now).state = RunState.cancelled :=
  finalizeRun_state _ _

lemma applyMark_futureDone (r : RunResult) (op : MarkOp) :
    (applyMark r op).futureDone = (r.futureDone || isFinalizingOp op) := by
  cases op with
  | running now => simp [applyMark, mark_running, isFinalizingOp]
  | success now => simp [applyMark, mark_success, finalizeRun_futureDone, isFinalizingOp]
  | failed e now => simp [applyMark, mark_failed, finalizeRun_futureDone, isFinalizingOp]
  | cancelled reason now =>
    simp [applyMark, mark_cancelled, finalizeRun_futureDone, isFinalizingOp]

lemma applyMark_inv (r : RunResult) (op : MarkOp) (h : futureInv r) :
    futureInv (applyMark r op) := by
  cases op with
  | running now =>
    unfold futureInv at h ⊢
    simpa [applyMark, mark_running] using h
  | success now => exact finalizeRun_inv _ _ h
  | failed e now => exact finalizeRun_inv _ _ h
  | cancelled reason now => exact finalizeRun_inv _ _ h

lemma applyMarks_futureDone (ops : List MarkOp) : ∀ r : RunResult,
    (applyMarks r ops).futureDone = (r.futureDone || ops.any isFinalizingOp) := by
  induction ops with
  | nil => intro r; simp [applyMarks]
  | cons op ops ih =>
    intro r
    have hstep : applyMarks r (op :: ops) = applyMarks (applyMark r op) ops := rfl
    rw [hstep, ih, applyMark_futureDone]
    simp [Bool.or_assoc]

lemma applyMarks_inv (ops : List MarkOp) : ∀ r : RunResult,
    futureInv r → futureInv (applyMarks r ops) := by
  induction ops with
  | nil => intro r h; simpa [applyMarks] using h
  | cons op ops ih =>
    intro r h
    have hstep : applyMarks r (op :: ops) = applyMarks (applyMark r op) ops := rfl
    rw [hstep]
    exact ih _ (applyMark_inv r op h)

lemma updateHistory_length_le (keep : Int) (hist : List String) (r : String)
    (hh : hist.length ≤ keep.toNat) :
    (updateHistory keep hist r).length ≤ keep.toNat := by
  unfold updateHistory
  split
  · rename_i h1
    have hl : (hist ++ [r]).length = hist.length + 1 := by simp
    split
    · rename_i h2
      rw [List.length_drop]
      omega
    · rename_i h2
      rw [hl] at h2 ⊢
      omega
  · exact hh

lemma history_foldl_length (keep : Int) (rs : List String) :
    ∀ hist : List String, hist.length ≤ keep.toNat →
      (rs.foldl (updateHistory keep) hist).length ≤ keep.toNat := by
  induction rs with
  | nil => intro hist hh; simpa using hh
  | cons r rs ih =>
    intro hist hh
    exact ih _ (updateHistory_length_le keep hist r hh)

lemma updateHistory_nonpos (keep : Int) (hk : ¬ 0 < keep) (hist : List String)
    (r : String) : updateHistory keep hist r = hist := by
  unfold updateHistory; rw [if_neg hk]

lemma history_foldl_nonpos (keep : Int) (hk : ¬ 0 < keep) (rs : List String) :
    ∀ hist : List String, rs.foldl (updateHistory keep) hist = hist := by
  induction rs with
  | nil => intro hist; rfl
  | cons r rs ih =>
    intro hist
    have hstep : (r :: rs).foldl (updateHistory keep) hist
        = rs.foldl (updateHistory keep) (updateHistory keep hist r) := rfl
    rw [hstep, updateHistory_nonpos keep hk, ih]

lemma updateHistory_suffix (keep : Int) (hk : 0 < keep) (hist : List String)
    (r : String) :
    ∃ dropped, dropped ++ updateHistory keep hist r = hist ++ [r] := by
  unfold updateHistory
  rw [if_pos hk]
  split
  · exact ⟨(hist ++ [r]).take ((hist ++ [r]).length - keep.toNat),
      List.take_append_drop _ _⟩
  · exact ⟨[], rfl⟩

lemma validate_ok_conditions (cfg : CommandConfig)
    (h : validateCommandConfig cfg = Except.ok ()) :
    cfg.name.isEmpty = false ∧
    cfg.command.toList.all (fun c => c.isWhitespace) = false ∧
    0 ≤ cfg.max_concurrent ∧ timeoutInvalid cfg.timeout_secs = false ∧
    (cfg.on_retrigger = "cancel_and_restart" ∨ cfg.on_retrigger = "ignore") ∧
    firstTriggerError cfg.triggers false = none ∧
    firstTriggerError cfg.cancel_on_triggers false = none := by
  unfold validateCommandConfig at h
  split_ifs at h with h1 h2 h3 h4 h5
  rcases hm1 : firstTriggerError cfg.triggers false with _ | e1
  · rcases hm2 : firstTriggerError cfg.cancel_on_triggers false with _ | e2
    · refine ⟨by simpa using h1, by simpa using h2, by omega, by simpa using h4,
        by tauto, rfl, rfl⟩

    · rw [hm1, hm2] at h
      exact absurd h (by simp)
  · rw [hm1] at h
    exact absurd h (by simp)

/-- C1: for every CommandConfig (whose validated `on_retrigger` lies in the
enum) and every list of active runs, `ConcurrencyPolicy.decide` applies the
first matching rule in order: `max_concurrent == 0` → allow, cancel none;
`len(active_runs) < max_concurrent` → allow, cancel none;
`on_retrigger == cancel_and_restart` → allow, cancel the entire active list;
else (`ignore`) → disallow, cancel none. -/
theorem C1_decide_rules (cfg : CommandConfig) (runs : List String)
    (h : cfg.on_retrigger = "cancel_and_restart" ∨ cfg.on_retrigger = "ignore") :
    ConcurrencyPolicy.decide cfg runs =
      (if cfg.max_concurrent = 0 then { allow := true, runs_to_cancel := [] }
       else if (runs.length : Int) < cfg.max_concurrent then
         { allow := true, runs_to_cancel := [] }
       else if cfg.on_retrigger = "cancel_and_restart" then
         { allow := true, runs_to_cancel := runs }
       else { allow := false, runs_to_cancel := [] }) := by
  unfold ConcurrencyPolicy.decide
  rcases h with h | h
  · rw [h]
    simp
  · rw [h]
    have hne : ¬(("ignore" : String) = "cancel_and_restart") := by decide
    simp [hne]

/-- Witness for C1 at a concrete config at its limit under `ignore`. -/
theorem C1_decide_rules_witness :
    ConcurrencyPolicy.decide
      { name := "Build", command := "make", triggers := [], max_concurrent := 1,
        on_retrigger := "ignore" } ["r1"] = { allow := false, runs_to_cancel := [] } := by
  have h := C1_decide_rules
    { name := "Build", command := "make", triggers := [], max_concurrent := 1,
      on_retrigger := "ignore" } ["r1"] (Or.inr rfl)
  rw [h]
  decide

/-- C3: after any sequence of completions handled by `_task_completed`, a
command's history (starting empty) has length at most `keep_history`; it
stays empty when `keep_history = 0`; and each update only drops entries from
the front (oldest first), the new history being a suffix of the old one plus
the new entry. -/
theorem C3_history_bounded (keep : Int) (hk : 0 ≤ keep) (rs : List String) :
    (((rs.foldl (updateHistory keep) []).length : Int) ≤ keep) ∧
    (keep = 0 → rs.foldl (updateHistory keep) [] = []) ∧
    (0 < keep → ∀ hist r, ∃ dropped, dropped ++ updateHistory keep hist r = hist ++ [r]) := by
  refine ⟨?_, ?_, ?_⟩
  · have h := history_foldl_length keep rs [] (by simp)
    omega
  · intro h0
    subst h0
    exact history_foldl_nonpos 0 (by decide) rs []
  · intro hpos hist r
    exact updateHistory_suffix keep hpos hist r

/-- Witness for C3: three completions against `keep_history = 2`. -/
theorem C3_history_bounded_witness :
    (((["a", "b", "c"].foldl (updateHistory 2) []).length : Int) ≤ 2) :=
  (C3_history_bounded 2 (by decide) ["a", "b", "c"]).1

/-- C9: for every config with `max_concurrent ≥ 0` and `on_retrigger` in the
enum, and every list of active runs, the verdict of
`CommandRunner._should_start_new_run` equals the `allow` field of
`ConcurrencyPolicy.decide` on the same inputs, and the runs it cancels as a
side effect are exactly `decide`'s `runs_to_cancel`. -/
theorem C9_should_start_refines_decide (cfg : CommandConfig) (live : List String)
    (h0 : 0 ≤ cfg.max_concurrent)
    (h1 : cfg.on_retrigger = "cancel_and_restart" ∨ cfg.on_retrigger = "ignore") :
    (shouldStartNewRun cfg live).1 = (ConcurrencyPolicy.decide cfg live).allow ∧
    (shouldStartNewRun cfg live).2 = (ConcurrencyPolicy.decide cfg live).runs_to_cancel := by
  unfold shouldStartNewRun ConcurrencyPolicy.decide
  have hne : ¬(("ignore" : String) = "cancel_and_restart") := by decide
  by_cases hz : cfg.max_concurrent = 0
  · simp [hz]
  · have hnle : ¬(cfg.max_concurrent ≤ 0) := by omega
    by_cases hlt : (live.length : Int) < cfg.max_concurrent
    · simp [hz, hnle, hlt]
    · rcases h1 with h1 | h1
      · have hni : ¬(cfg.on_retrigger = "ignore") := by rw [h1]; decide
        simp [hz, hnle, hlt, h1, hni]
      · simp [hz, hnle, hlt, h1, hne]

/-- Witness for C9 at a concrete config at its limit under `ignore`. -/
theorem C9_should_start_refines_decide_witness :
    (shouldStartNewRun
      { name := "Sleepy", command := "sleep 10", triggers := [], max_concurrent := 1,
        on_retrigger := "ignore" } ["r1"]).1 =
    (ConcurrencyPolicy.decide
      { name := "Sleepy", command := "sleep 10", triggers := [], max_concurrent := 1,
        on_retrigger := "ignore" } ["r1"]).allow :=
  (C9_should_start_refines_decide _ _ (by decide) (Or.inr rfl)).1

/-- C10: an event with no start-index entry, no cancel-index entry and no
registered callback makes `trigger` return immediately: nothing starts,
nothing is cancelled, no callback runs, the cycle warning cannot fire (even
when the event already occurs in the chain) and `_seen` is left untouched,
so the event never occupies a position in any causal chain. -/
theorem C10_unhandled_event_inert (st : RunnerState) (e : String) (seen : List String)
    (h1 : cmdsForTrigger st.configs e = [])
    (h2 : cmdsForCancelTrigger st.configs e = [])
    (h3 : callbacksFor st.callbacks e = []) :
    triggerDispatch st e seen =
      { started := [], runsCancelled := [], policyCancelled := [], callbacksRun := [],
        cycleWarning := false, warningChain := [], seenAfter := seen } := by
  unfold triggerDispatch
  rw [if_pos ⟨h1, h2, h3⟩]

/-- Witness for C10: an unmatched event that is already in the chain. -/
theorem C10_unhandled_event_inert_witness :
    triggerDispatch
      { configs := [{ name := "Echo", command := "echo hello", triggers := ["go"] }] }
      "nope" ["nope"] =
      { started := [], runsCancelled := [], policyCancelled := [], callbacksRun := [],
        cycleWarning := false, warningChain := [], seenAfter := ["nope"] } :=
  C10_unhandled_event_inert _ _ _ rfl rfl rfl

/-- C2 counterexample: a `mark_cancelled` issued after the run is already
finalized (SUCCESS) is not a no-op — it changes `state` and `end_time`,
contradicting the claim that post-finalization `mark_*` calls leave state,
success, error and end_time unchanged. -/
theorem C2_counterexample_not_noop :
    is_finished (mark_success freshRun 1) = true ∧
    (mark_cancelled (mark_success freshRun 1) none 2).state ≠
      (mark_success freshRun 1).state ∧
    (mark_cancelled (mark_success freshRun 1) none 2).end_time ≠
      (mark_success freshRun 1).end_time := by
  decide

/-- C2 (amended): the waiter future resolves exactly once — across any
sequence of `mark_*` calls on a fresh RunResult, `set_result` is called
exactly once as soon as a finalizing mark occurs, and never again.  However,
`mark_*` calls after finalization are not no-ops: `mark_success`,
`mark_failed` and `mark_cancelled` unconditionally overwrite `state` (and
`success`, `error`, `end_time` with them), and only `mark_running` emits a
warning when invoked from a non-PENDING state (while still overwriting
`state` and `start_time`). -/
theorem C2_single_shot_future :
    (∀ ops : List MarkOp,
      (applyMarks freshRun ops).futureResolutions =
        (if ops.any isFinalizingOp then 1 else 0)) ∧
    (∀ (r : RunResult) (now : Nat), (mark_success r now).state = RunState.success) ∧
    (∀ (r : RunResult) (e : String) (now : Nat),
      (mark_failed r e now).state = RunState.failed) ∧
    (∀ (r : RunResult) (reason : Option String) (now : Nat),
      (mark_cancelled r reason now).state = RunState.cancelled) ∧
    (∀ (r : RunResult) (now : Nat), (mark_running r now).state = RunState.running ∧
      (r.state ≠ RunState.pending → (mark_running r now).warnings = r.warnings + 1)) := by
  refine ⟨?_, ?_, ?_, ?_, ?_⟩
  · intro ops
    have hinv : futureInv (applyMarks freshRun ops) :=
      applyMarks_inv ops freshRun (by simp [futureInv, freshRun])
    have hdone := applyMarks_futureDone ops freshRun
    unfold futureInv at hinv
    rw [hinv, hdone]
    simp [freshRun]
  · intro r now; exact mark_success_state r now
  · intro r e now; exact mark_failed_state r e now
  · intro r reason now; exact mark_cancelled_state r reason now
  · intro r now
    refine ⟨rfl, ?_⟩
    intro h
    unfold mark_running
    simp [h]

/-- Witness for C2: one finalizing sequence resolves once; a re-mark from a
finalized state warns. -/
theorem C2_single_shot_future_witness :
    (applyMarks freshRun [MarkOp.success 1, MarkOp.cancelled none 2]).futureResolutions = 1 ∧
    (mark_running (mark_success freshRun 1) 3).warnings =
      (mark_success freshRun 1).warnings + 1 := by
  constructor
  · have h := C2_single_shot_future.1 [MarkOp.success 1, MarkOp.cancelled none 2]
    simpa using h
  · exact (C2_single_shot_future.2.2.2.2 (mark_success freshRun 1) 3).2 (by decide)

/-- C4: the claim is right and the code is wrong.  `CommandRunner.run_command`
performs no debounce check at all — at a config with `debounce_in_ms = 1000`
and no live run, admission succeeds irrespective of any clock (the admission
function does not even take one), whereas the spec-modelled debounce check
(the enforcement lives in the orchestrator module absent from `src/`, with
`DebounceError` declared in `exceptions.py`) rejects a request arriving 1 ms
after the previous run ended, carrying (elapsed, required) = (1, 1000). -/
theorem C4_run_command_has_no_debounce :
    runCommandAdmission
      { configs := [{ name := "Build", command := "make", triggers := [],
                      debounce_in_ms := 1000 }],
        live := [("Build", [])] } "Build" = Except.ok [] ∧
    specDebounceCheck 1000 (some 100) 101 = Except.error (1, 1000) := by
  constructor
  · rfl
  · rfl

/-- C5: the claim is right and the code is wrong.  `CommandRunner.trigger`
never consults `loop_detection`: with a single command `Loop` configured with
`loop_detection = false` and `triggers = ["go"]`, dispatching `"go"` with
`"go"` already in `_seen` aborts the branch with a cycle warning (naming the
recent chain) and starts nothing, whereas the claim says dispatch of that
command continues despite the cycle. -/
theorem C5_cycle_abort_ignores_loop_detection :
    triggerDispatch
      { configs := [{ name := "Loop", command := "echo hi", triggers := ["go"],
                      loop_detection := false }] } "go" ["go"] =
      { started := [], runsCancelled := [], policyCancelled := [], callbacksRun := [],
        cycleWarning := true, warningChain := ["go", "go"], seenAfter := ["go"] } ∧
    ({ name := "Loop", command := "echo hi", triggers := ["go"],
       loop_detection := false } : CommandConfig).loop_detection = false := by
  constructor
  · rfl
  · rfl

/-- C6 counterexample: at `timeout_secs = 5` the runner's timeout path marks
the run FAILED with the fixed message "Timeout exceeded", which does not
include the configured duration (the digit 5 does not occur in it),
contradicting the claim that the error message includes the configured
duration. -/
theorem C6_counterexample_message_lacks_duration :
    (executeRun
      { name := "Sleepy", command := "sleep 10", triggers := [], timeout_secs := some 5 }
      freshRun (ProcBehavior.exceedsTimeout "") 9).result.error = some "Timeout exceeded" ∧
    ({ name := "Sleepy", command := "sleep 10", triggers := [],
       timeout_secs := some 5 } : CommandConfig).timeout_secs = some 5 ∧
    ¬ '5' ∈ "Timeout exceeded".toList := by
  refine ⟨rfl, rfl, by decide⟩

/-- C6 (amended): when a run with `timeout_secs` set exceeds its timeout, the
result is marked FAILED (nothing is raised to the caller) and the process is
terminated; in `CommandRunner._execute` the error message is the fixed string
"Timeout exceeded" (indicating timeout but without the duration), while in
`LocalSubprocessExecutor._monitor_process` the message does include the
configured duration. -/
theorem C6_timeout_marks_failed (cfg : CommandConfig) (r : RunResult) (T : Int)
    (buffered : String) (now : Nat) (_ht : cfg.timeout_secs = some T) :
    ((executeRun cfg r (ProcBehavior.exceedsTimeout buffered) now).result.state
        = RunState.failed ∧
     (executeRun cfg r (ProcBehavior.exceedsTimeout buffered) now).result.error
        = some "Timeout exceeded" ∧
     (executeRun cfg r (ProcBehavior.exceedsTimeout buffered) now).processTerminated
        = true ∧
     (executeRun cfg r (ProcBehavior.exceedsTimeout buffered) now).raisedToCaller
        = false) ∧
    ((monitorTimeout r T now).result.state = RunState.failed ∧
     (monitorTimeout r T now).result.error =
       some ("Command timed out after " ++ toString T ++ " seconds") ∧
     (monitorTimeout r T now).processTerminated = true ∧
     (monitorTimeout r T now).raisedToCaller = false) := by
  refine ⟨⟨?_, ?_, rfl, rfl⟩, ⟨?_, ?_, rfl, rfl⟩⟩
  · exact mark_failed_state _ _ _
  · exact mark_failed_error _ _ _
  · exact mark_failed_state _ _ _
  · exact mark_failed_error _ _ _

/-- Witness for C6 at `timeout_secs = 5`. -/
theorem C6_timeout_marks_failed_witness :
    (executeRun
      { name := "Sleepy", command := "sleep 10", triggers := [], timeout_secs := some 5 }
      freshRun (ProcBehavior.exceedsTimeout "") 9).result.state = RunState.failed :=
  ((C6_timeout_marks_failed _ freshRun 5 "" 9 rfl).1).1

/-- C7 counterexample: `CommandConfig.__post_init__` accepts
`keep_history = -1` and `debounce_in_ms = -5` without complaint, so the claim
that `keep_history < 0` and `debounce_in_ms < 0` are rejected at construction
fails. -/
theorem C7_counterexample_negative_accepted :
    validateCommandConfig
      { name := "Build", command := "make", triggers := ["go"], keep_history := -1 } =
      Except.ok () ∧
    validateCommandConfig
      { name := "Build", command := "make", triggers := ["go"], debounce_in_ms := -5 } =
      Except.ok () := by
  constructor
  · rfl
  · rfl

/-- C7 (amended): construction rejects — with the single distinguished
ConfigValidationError — an empty name, a whitespace-only command, a negative
`max_concurrent`, a non-positive `timeout_secs`, an `on_retrigger` outside
the enum, and invalid trigger characters; but `keep_history < 0` and
`debounce_in_ms < 0` are not validated and are accepted. -/
theorem C7_listed_violations_rejected (cfg : CommandConfig)
    (hviol : cfg.name.isEmpty = true ∨
      cfg.command.toList.all (fun c => c.isWhitespace) = true ∨
      cfg.max_concurrent < 0 ∨ timeoutInvalid cfg.timeout_secs = true ∨
      ¬(cfg.on_retrigger = "cancel_and_restart" ∨ cfg.on_retrigger = "ignore") ∨
      firstTriggerError cfg.triggers false ≠ none ∨
      firstTriggerError cfg.cancel_on_triggers false ≠ none) :
    ∃ e, validateCommandConfig cfg = Except.error e := by
  cases hv : validateCommandConfig cfg with
  | error e => exact ⟨e, rfl⟩
  | ok u =>
    exfalso
    cases u
    have hc := validate_ok_conditions cfg hv
    rcases hviol with h | h | h | h | h | h | h
    · rw [hc.1] at h; exact Bool.false_ne_true h
    · rw [hc.2.1] at h; exact Bool.false_ne_true h
    · have := hc.2.2.1; omega
    · rw [hc.2.2.2.1] at h; exact Bool.false_ne_true h
    · exact h hc.2.2.2.2.1
    · exact h hc.2.2.2.2.2.1
    · exact h hc.2.2.2.2.2.2

/-- Witness for C7 at a config with a negative `max_concurrent`. -/
theorem C7_listed_violations_rejected_witness :
    ∃ e, validateCommandConfig
      { name := "Build", command := "make", triggers := [], max_concurrent := -1 } =
      Except.error e :=
  C7_listed_violations_rejected _ (Or.inr (Or.inr (Or.inl (by decide))))

/-- C8 counterexample: the callback registry is consulted by exact dictionary
key only.  The pattern `command_*:Test` is the event `command_success:Test`
with `success` (non-empty, colon-free) in place of `*`, yet dispatching that
event invokes no callback registered under the pattern; moreover
`validate_trigger` with wildcards allowed accepts `a**b`, a pattern with two
`*`, which the claim says is not accepted. -/
theorem C8_counterexample_no_wildcard_match :
    callbacksFor [("command_*:Test", "cb1")] "command_success:Test" = [] ∧
    "command_success:Test" = "command_" ++ "success" ++ ":Test" ∧
    "command_*:Test" = "command_" ++ "*" ++ ":Test" ∧
    "success" ≠ "" ∧ (∀ c ∈ "success".toList, c ≠ ':') ∧
    validate_trigger "a**b" true = Except.ok "a**b" := by
  refine ⟨rfl, rfl, rfl, by decide, by decide, rfl⟩

/-- C8 (amended): a callback subscription fires only for events exactly equal
to its pattern string — a pattern containing `*` matches only the literal
event containing `*`, with no wildcard expansion — and `validate_trigger`
with wildcards allowed accepts any non-empty pattern over the wildcard
character class, regardless of how many `*` it contains. -/
theorem C8_exact_match_only :
    (∀ (p cb e : String), callbacksFor [(p, cb)] e = if p = e then [cb] else []) ∧
    (∀ s : String, s.isEmpty = false → s.toList.all (isTriggerChar true) = true →
      validate_trigger s true = Except.ok s) := by
  constructor
  · intro p cb e
    by_cases h : p = e
    · subst h
      simp [callbacksFor]
    · simp [callbacksFor, h]
  · intro s h1 h2
    unfold validate_trigger
    simp only [h1, h2]
    simp

/-- Witness for C8: a wildcard pattern does not fire on a matching event, and
a two-wildcard pattern validates. -/
theorem C8_exact_match_only_witness :
    callbacksFor [("command_*:Test", "cb1")] "command_success:Test2" = [] ∧
    validate_trigger "a**b" true = Except.ok "a**b" := by
  constructor
  · have h := C8_exact_match_only.1 "command_*:Test" "cb1" "command_success:Test2"
    rw [h]
    decide
  · exact C8_exact_match_only.2 "a**b" (by decide) (by decide)

end Cmdorc
